import Mathlib

/-! The rhubarb C API boundary (`rhubarb_c_api.cpp`).

A shallow embedding of `src/rhubarb/src/rhubarb/rhubarb_c_api.cpp`.

* `const char*` arguments are `Option String` (`none` is the null pointer, the
  string is the text before the terminator), the caller's `char*` buffer is
  `Option (Nat → Char)` (the memory found at each offset from the pointer).
* `int` values are `Int`; the two places where the source narrows or adds in
  `int` go through `wrapInt32`.
* The `std::string` holding the exported JSON is a `List Char`, one element per
  `char`, so `json.size()` is `List.length`.
* Process-wide state (environment, the static `g_resource_root`, the working
  directory) and everything observable from outside (log calls, `chdir`, calls
  into the pipeline) are carried in `Process`.
* The collaborators that live outside the file (shape catalogue, pipeline,
  exporter, `chdir`, core count) are the fields of `Collab`.
-/

namespace Rhubarb

/-! ## Machine integers -/

/-- Value of an integer after it is stored in a 32-bit two's complement `int`. -/
def wrapInt32 (z : Int) : Int := (z + 2147483648) % 4294967296 - 2147483648

/-- The cast `(int)n` of a `size_t`. -/
def castInt (n : Nat) : Int := wrapInt32 (n : Int)

/-- The sum `a + b` computed in `int`. -/
def addInt (a b : Int) : Int := wrapInt32 (a + b)

/-! ## Build configuration, exceptions, log -/

/-- Preprocessor configuration: `ANDROID` defined, `_WIN32` defined, or neither. -/
inductive Platform where
  | android
  | win32
  | posix
  deriving DecidableEq, Repr

/-- A `std::exception` object together with what `std::rethrow_if_nested` finds
in it: nothing, another `std::exception`, or something that is not one. -/
inductive StdException where
  | plain (what : String)
  | nestedStd (what : String) (nested : StdException)
  | nestedOther (what : String)
  deriving DecidableEq, Repr

/-- What a `throw` that reaches the boundary carries. -/
inductive Thrown where
  | stdException (e : StdException)
  | other
  deriving DecidableEq, Repr

/-- Members of `enum class RecognizerType`; `invalid` stands for any other value
of the underlying integer. -/
inductive RecognizerType where
  | PocketSphinx
  | Phonetic
  | invalid (raw : Int)
  deriving DecidableEq, Repr

/-- The concrete recognizer objects `createRecognizerForCapi` can build. -/
inductive Recognizer where
  | PocketSphinxRecognizer
  | PhoneticRecognizer
  deriving DecidableEq, Repr

/-- One variadic argument of a log call. -/
inductive LogArg where
  | str (s : String)
  | num (v : Int)
  | ptr (isNull : Bool)
  deriving DecidableEq, Repr

/-- Everything a call does that is visible outside of it, in order. Each
`logI`/`logE` is one call of `__android_log_vprint`, that is one log entry. -/
inductive Event (Shape : Type) where
  | logI (fmt : String) (args : List LogArg)
  | logE (fmt : String) (args : List LogArg)
  | chdir (dir : String) (ok : Bool)
  | createRecognizer (recognizer : Recognizer)
  | animateWaveFile (inputFilePath : String) (dialogText : Option String)
      (recognizer : Recognizer) (targetShapeSet : Finset Shape) (maxThreadCount : Int)
  | exportAnimation (inputFilePath : String) (targetShapeSet : Finset Shape)

/-- Process-wide state the boundary reads and writes. -/
structure Process (Shape : Type) where
  env : String → Option String
  g_resource_root : String
  cwd : String
  trace : List (Event Shape)

/-- Collaborators defined outside `rhubarb_c_api.cpp`, taken as parameters.
`animateWaveFile` and `exportAnimation` receive the working directory first,
since they resolve `res/...` and the absolute input path against it. -/
structure Collab (Shape Timeline : Type) where
  getBasicShapes : Finset Shape
  parse : Char → Except Thrown Shape
  getProcessorCoreCount : Int
  chdir : String → Bool
  animateWaveFile : String → String → Option String → Recognizer → Finset Shape → Int →
    Except Thrown Timeline
  exportAnimation : String → String → Timeline → Finset Shape → Except Thrown (List Char)

/-- Result of one call of an analysis entry point. -/
structure Outcome (Shape : Type) where
  rc : Int
  out_json : Option (Nat → Char)
  proc : Process Shape

section Model

variable {Shape Timeline : Type} [DecidableEq Shape]

/-- Lines 40-45 and 53: `logI` prints on ANDROID and is empty elsewhere. -/
def logI (p : Platform) (fmt : String) (args : List LogArg) (st : Process Shape) :
    Process Shape :=
  match p with
  | Platform.android => { st with trace := st.trace ++ [Event.logI fmt args] }
  | _ => st

/-- Lines 46-51 and 54: `logE` prints on ANDROID and is empty elsewhere. -/
def logE (p : Platform) (fmt : String) (args : List LogArg) (st : Process Shape) :
    Process Shape :=
  match p with
  | Platform.android => { st with trace := st.trace ++ [Event.logE fmt args] }
  | _ => st

/-- Lines 63-65: the loop `for (int i = 0; i < level; i++) logE("  ")`. -/
def logIndent (p : Platform) : Nat → Process Shape → Process Shape
  | 0, st => st
  | n + 1, st => logIndent p n (logE p "  " [] st)

/-- Lines 61-75: `logNested`. -/
def logNested (p : Platform) : StdException → Nat → Process Shape → Process Shape
  | StdException.plain what, level, st =>
    logE p "%s" [LogArg.str what] (logIndent p level st)
  | StdException.nestedStd what nested, level, st =>
    logNested p nested (level + 1) (logE p "%s" [LogArg.str what] (logIndent p level st))
  | StdException.nestedOther what, level, st =>
    logE p "  <non-std nested exception>" []
      (logE p "%s" [LogArg.str what] (logIndent p level st))

/-- Lines 79-82: the loop of `getTargetShapeSetForCapi`, one `parse` and one
`insert` per character, leaving at the first `parse` that throws. -/
def insertShapes (x : Collab Shape Timeline) :
    List Char → Finset Shape → Except Thrown (Finset Shape)
  | [], result => Except.ok result
  | ch :: rest, result =>
    match x.parse ch with
    | Except.error t => Except.error t
    | Except.ok shape => insertShapes x rest (insert shape result)

/-- Lines 77-84: `getTargetShapeSetForCapi`. -/
def getTargetShapeSetForCapi (x : Collab Shape Timeline) (extendedShapesString : String) :
    Except Thrown (Finset Shape) :=
  insertShapes x extendedShapesString.toList x.getBasicShapes

/-- Lines 86-95: `createRecognizerForCapi`. -/
def createRecognizerForCapi : RecognizerType → Except Thrown Recognizer
  | RecognizerType.PocketSphinx => Except.ok Recognizer.PocketSphinxRecognizer
  | RecognizerType.Phonetic => Except.ok Recognizer.PhoneticRecognizer
  | RecognizerType.invalid _ =>
    Except.error (Thrown.stdException (StdException.plain "Unknown recognizer."))

/-- Lines 97-126: `analyzeWavToJsonInternal`, run in working directory `cwd`.
Returns the JSON text or what was thrown, and the events up to that point. -/
def analyzeWavToJsonInternal (x : Collab Shape Timeline) (cwd : String)
    (inputFilePath : String) (dialogText : Option String) (recognizerType : RecognizerType)
    (extendedShapesString : String) (maxThreadCount : Int) :
    Except Thrown (List Char) × List (Event Shape) :=
  match getTargetShapeSetForCapi x extendedShapesString with
  | Except.error t => (Except.error t, [])
  | Except.ok targetShapeSet =>
    match createRecognizerForCapi recognizerType with
    | Except.error t => (Except.error t, [])
    | Except.ok recognizer =>
      let ev1 : List (Event Shape) :=
        [Event.createRecognizer recognizer,
         Event.animateWaveFile inputFilePath dialogText recognizer targetShapeSet
           maxThreadCount]
      match x.animateWaveFile cwd inputFilePath dialogText recognizer targetShapeSet
          maxThreadCount with
      | Except.error t => (Except.error t, ev1)
      | Except.ok animation =>
        let ev2 := ev1 ++ [Event.exportAnimation inputFilePath targetShapeSet]
        match x.exportAnimation cwd inputFilePath animation targetShapeSet with
        | Except.error t => (Except.error t, ev2)
        | Except.ok out => (Except.ok out, ev2)

/-- Lines 131-143: `applyResourceRootIfSet`. -/
def applyResourceRootIfSet (p : Platform) (x : Collab Shape Timeline) (st : Process Shape) :
    Process Shape :=
  match p with
  | Platform.android =>
    if st.g_resource_root ≠ "" then
      if x.chdir st.g_resource_root then
        logI p "applyResourceRootIfSet: chdir(%s) ok" [LogArg.str st.g_resource_root]
          { st with cwd := st.g_resource_root,
                    trace := st.trace ++ [Event.chdir st.g_resource_root true] }
      else
        logE p "applyResourceRootIfSet: chdir(%s) FAILED" [LogArg.str st.g_resource_root]
          { st with trace := st.trace ++ [Event.chdir st.g_resource_root false] }
    else
      logE p "applyResourceRootIfSet: resource root NOT set (call rhubarb_set_resource_root)"
        [] st
  | _ => st

/-- The calls `setenv(name, value, 1)` and `_putenv_s(name, value)` with a
non-empty value: the variable holds `value` afterwards. -/
def setenv (name value : String) (st : Process Shape) : Process Shape :=
  { st with env := fun k => if k = name then some value else st.env k }

/-- Lines 150-159: `rhubarb_set_resource_root`. -/
def rhubarb_set_resource_root (p : Platform) (root_dir_utf8 : Option String)
    (st : Process Shape) : Int × Process Shape :=
  match root_dir_utf8 with
  | none => (3, st)
  | some root =>
    if root = "" then (3, st)
    else
      match p with
      | Platform.win32 => (0, setenv "RHUBARB_RESOURCE_ROOT" root st)
      | _ => (0, setenv "RHUBARB_RESOURCE_ROOT" root st)

/-- The terminator `c_str()` appends. -/
def NUL : Char := Char.ofNat 0

/-- The array `json.c_str()` points to: the characters and a terminator. -/
def c_str (json : List Char) : List Char := json ++ [NUL]

/-- The call `std::memcpy(dst, src, n)`: offsets below `n` receive the source. -/
def memcpy (dst : Nat → Char) (src : List Char) (n : Nat) : Nat → Char :=
  fun i => if i < n then src.getD i NUL else dst i

/-- Lines 162-215: `rhubarb_analyze_wav_file`. -/
def rhubarb_analyze_wav_file (p : Platform) (x : Collab Shape Timeline)
    (wav_path : Option String) (out_json : Option (Nat → Char)) (out_json_size : Int)
    (st : Process Shape) : Outcome Shape :=
  let invalid : Outcome Shape :=
    { rc := 3, out_json := out_json,
      proc := logE p "rhubarb_analyze_wav_file: invalid args (wav_path=%p out_json=%p size=%d)"
        [LogArg.ptr wav_path.isNone, LogArg.ptr out_json.isNone, LogArg.num out_json_size] st }
  match wav_path, out_json with
  | some wav, some buf =>
    if out_json_size ≤ 0 then invalid
    else
      let st := logI p "rhubarb_analyze_wav_file: wav_path=%s" [LogArg.str wav] st
      let st := applyResourceRootIfSet p x st
      let inputPath := wav
      let dialogText : Option String := none
      let recognizer := RecognizerType.Phonetic
      let extendedShapes := "GHX"
      let maxThreads := x.getProcessorCoreCount
      let st := logI p
        "rhubarb_analyze_wav_file: recognizer=phonetic extendedShapes=%s threads=%d"
        [LogArg.str extendedShapes, LogArg.num maxThreads] st
      match analyzeWavToJsonInternal x st.cwd inputPath dialogText recognizer extendedShapes
          maxThreads with
      | (Except.ok json, ev) =>
        let st := { st with trace := st.trace ++ ev }
        let st := logI p "rhubarb_analyze_wav_file: json_size=%d"
          [LogArg.num (castInt json.length)] st
        if addInt (castInt json.length) 1 > out_json_size then
          { rc := 2, out_json := some buf,
            proc := logE p "rhubarb_analyze_wav_file: buffer too small (need=%d have=%d)"
              [LogArg.num (addInt (castInt json.length) 1), LogArg.num out_json_size] st }
        else
          { rc := 0, out_json := some (memcpy buf (c_str json) (json.length + 1)), proc := st }
      | (Except.error (Thrown.stdException e), ev) =>
        let st := { st with trace := st.trace ++ ev }
        { rc := 1, out_json := some buf,
          proc := logNested p e 0 (logE p "rhubarb_analyze_wav_file: exception chain:" [] st) }
      | (Except.error Thrown.other, ev) =>
        let st := { st with trace := st.trace ++ ev }
        { rc := 1, out_json := some buf,
          proc := logE p "rhubarb_analyze_wav_file: unknown exception" [] st }
  | _, _ => invalid

/-- Lines 242-248: the transcript handed on, absent for null or empty. -/
def dialogTextOf (dialog_text : Option String) : Option String :=
  match dialog_text with
  | some d => if d ≠ "" then some d else none
  | none => none

/-- Lines 256-259: the shape string handed on, `"GHX"` for null or empty. -/
def shapesOf (extended_shapes : Option String) : String :=
  match extended_shapes with
  | some s => if s ≠ "" then s else "GHX"
  | none => "GHX"

/-- Lines 218-292: `rhubarb_analyze_wav`. -/
def rhubarb_analyze_wav (p : Platform) (x : Collab Shape Timeline)
    (wav_path : Option String) (dialog_text : Option String) (recognizer_type : Int)
    (extended_shapes : Option String) (out_json : Option (Nat → Char)) (out_json_size : Int)
    (st : Process Shape) : Outcome Shape :=
  let invalid : Outcome Shape :=
    { rc := 3, out_json := out_json,
      proc := logE p "rhubarb_analyze_wav: invalid args (wav_path=%p out_json=%p size=%d)"
        [LogArg.ptr wav_path.isNone, LogArg.ptr out_json.isNone, LogArg.num out_json_size] st }
  match wav_path, out_json with
  | some wav, some buf =>
    if out_json_size ≤ 0 then invalid
    else
      let st := logI p "rhubarb_analyze_wav: called" [] st
      let st := logI p "rhubarb_analyze_wav: wav_path=%s" [LogArg.str wav] st
      let st := logI p "rhubarb_analyze_wav: recognizer_type=%d (ignored on Android)"
        [LogArg.num recognizer_type] st
      let st := applyResourceRootIfSet p x st
      let inputPath := wav
      let dialogText := dialogTextOf dialog_text
      let st :=
        match dialogText with
        | some d => logI p "rhubarb_analyze_wav: dialog_text_len=%d"
            [LogArg.num (castInt d.length)] st
        | none => logI p "rhubarb_analyze_wav: dialog_text=(none)" [] st
      let recognizer := RecognizerType.Phonetic
      let st := logI p "rhubarb_analyze_wav: forcing phonetic recognizer (mobile-safe)" [] st
      let shapes := shapesOf extended_shapes
      let st := logI p "rhubarb_analyze_wav: extended_shapes=%s" [LogArg.str shapes] st
      let maxThreads := x.getProcessorCoreCount
      let st := logI p "rhubarb_analyze_wav: maxThreads=%d" [LogArg.num maxThreads] st
      match analyzeWavToJsonInternal x st.cwd inputPath dialogText recognizer shapes
          maxThreads with
      | (Except.ok json, ev) =>
        let st := { st with trace := st.trace ++ ev }
        let st := logI p "rhubarb_analyze_wav: json_size=%d"
          [LogArg.num (castInt json.length)] st
        if addInt (castInt json.length) 1 > out_json_size then
          { rc := 2, out_json := some buf,
            proc := logE p "rhubarb_analyze_wav: buffer too small (need=%d have=%d)"
              [LogArg.num (addInt (castInt json.length) 1), LogArg.num out_json_size] st }
        else
          { rc := 0, out_json := some (memcpy buf (c_str json) (json.length + 1)), proc := st }
      | (Except.error (Thrown.stdException e), ev) =>
        let st := { st with trace := st.trace ++ ev }
        { rc := 1, out_json := some buf,
          proc := logNested p e 0 (logE p "rhubarb_analyze_wav: exception chain:" [] st) }
      | (Except.error Thrown.other, ev) =>
        let st := { st with trace := st.trace ++ ev }
        { rc := 1, out_json := some buf,
          proc := logE p "rhubarb_analyze_wav: unknown exception" [] st }
  | _, _ => invalid

end Model

/-- Test line 19, `std::string json(buffer)`: the characters before the first
terminator, looking at the `n` characters of the buffer. -/
def readCString (mem : Nat → Char) (n : Nat) : List Char :=
  ((List.range n).map mem).takeWhile (fun c => c ≠ NUL)

/-- What a successful call leaves in a buffer of `size` characters that held
`before`: `j`, then the terminator, then the old contents; and, when `j` has no
terminator character inside, the buffer read as a C string is `j`, so that
every piece of `j` is found in it. -/
def HoldsJson (j : List Char) (before after : Nat → Char) (size : Nat) : Prop :=
  (∀ i, ∀ h : i < j.length, after i = j.get ⟨i, h⟩) ∧
  after j.length = NUL ∧
  (∀ i, j.length < i → after i = before i) ∧
  ((∀ c ∈ j, c ≠ NUL) →
    readCString after size = j ∧ ∀ key : List Char, key <:+: j → key <:+: readCString after size)

/-! ## Reading the trace -/

/-- Directories handed to `chdir`, in order. -/
def chdirCalls {Shape : Type} (tr : List (Event Shape)) : List String :=
  tr.filterMap fun ev =>
    match ev with
    | Event.chdir dir _ => some dir
    | _ => none

/-- Format strings of the error-level log entries, in order. -/
def errorFormats {Shape : Type} (tr : List (Event Shape)) : List String :=
  tr.filterMap fun ev =>
    match ev with
    | Event.logE fmt _ => some fmt
    | _ => none

/-- Recognizers handed to `animateWaveFile`, in order. -/
def recognizersPassed {Shape : Type} (tr : List (Event Shape)) : List Recognizer :=
  tr.filterMap fun ev =>
    match ev with
    | Event.animateWaveFile _ _ recognizer _ _ => some recognizer
    | _ => none

/-- Number of pipeline steps in a trace: recognizer constructions, calls of
`animateWaveFile` and calls of the exporter. -/
def pipelineSteps {Shape : Type} (tr : List (Event Shape)) : Nat :=
  tr.countP fun ev =>
    match ev with
    | Event.createRecognizer _ => true
    | Event.animateWaveFile _ _ _ _ _ => true
    | Event.exportAnimation _ _ => true
    | _ => false

/-- Messages logged through `logE("%s", e.what())`, in order. -/
def messageLines {Shape : Type} (tr : List (Event Shape)) : List String :=
  tr.filterMap fun ev =>
    match ev with
    | Event.logE "%s" [LogArg.str m] => some m
    | _ => none

/-- Number of `<non-std nested exception>` entries in a trace. -/
def sentinelLines {Shape : Type} (tr : List (Event Shape)) : Nat :=
  tr.countP fun ev =>
    match ev with
    | Event.logE "  <non-std nested exception>" [] => true
    | _ => false

/-- The `what()` of every level of a chain, outermost first. -/
def StdException.messages : StdException → List String
  | StdException.plain what => [what]
  | StdException.nestedStd what nested => what :: nested.messages
  | StdException.nestedOther what => [what]

/-- Whether the innermost recorded cause of a chain is not a `std::exception`. -/
def StdException.endsNonStd : StdException → Bool
  | StdException.plain _ => false
  | StdException.nestedStd _ nested => nested.endsNonStd
  | StdException.nestedOther _ => true

/-- The set `{ parse(c) | c a character of s }` of the specification, for the
characters that parse. -/
def parsedShapes {Shape Timeline : Type} [DecidableEq Shape] (x : Collab Shape Timeline)
    (chars : List Char) : Finset Shape :=
  (chars.filterMap fun c =>
    match x.parse c with
    | Except.ok shape => some shape
    | Except.error _ => none).toFinset

/-! ## A concrete set of collaborators, used to run the model -/

/-- A nine-member shape catalogue used for the examples. -/
inductive DemoShape where
  | A | B | C | D | E | F | G | H | X
  deriving DecidableEq, Repr

/-- Example parser: the nine upper-case names parse, everything else throws. -/
def demoParse (ch : Char) : Except Thrown DemoShape :=
  if ch = 'A' then Except.ok DemoShape.A
  else if ch = 'B' then Except.ok DemoShape.B
  else if ch = 'C' then Except.ok DemoShape.C
  else if ch = 'D' then Except.ok DemoShape.D
  else if ch = 'E' then Except.ok DemoShape.E
  else if ch = 'F' then Except.ok DemoShape.F
  else if ch = 'G' then Except.ok DemoShape.G
  else if ch = 'H' then Except.ok DemoShape.H
  else if ch = 'X' then Except.ok DemoShape.X
  else Except.error (Thrown.stdException (StdException.plain "Unknown shape."))

/-- Example exporter output (thirty-three characters). -/
def demoJson : List Char := "\x7b\"metadata\": \x7b\x7d, \"mouthCues\": []\x7d".toList

/-- Example collaborators: the pipeline fails on the empty path and succeeds
otherwise, the exporter always writes `demoJson`. -/
def demoCollab : Collab DemoShape Unit :=
  { getBasicShapes :=
      {DemoShape.A, DemoShape.B, DemoShape.C, DemoShape.D, DemoShape.E, DemoShape.F},
    parse := demoParse,
    getProcessorCoreCount := 4,
    chdir := fun _ => true,
    animateWaveFile := fun _ path _ _ _ _ =>
      if path = "" then
        Except.error (Thrown.stdException
          (StdException.nestedStd "Error processing file." (StdException.plain "File not found.")))
      else Except.ok (),
    exportAnimation := fun _ _ _ _ => Except.ok demoJson }

/-- Example collaborators whose exporter writes 2^31 characters. -/
def hugeCollab : Collab DemoShape Unit :=
  { demoCollab with exportAnimation := fun _ _ _ _ => Except.ok (List.replicate 2147483648 'a') }

/-- A caller buffer filled with `z`. -/
def demoBuffer : Nat → Char := fun _ => 'z'

/-- Process state when the library is loaded: the static `g_resource_root` is
default-constructed, hence empty. -/
def Process.atStart (Shape : Type) : Process Shape :=
  { env := fun _ => none, g_resource_root := "", cwd := "/", trace := [] }

end Rhubarb

/-! # Theorems -/

namespace Rhubarb

section Lemmas

variable {Shape Timeline : Type}

/-! ## Machine integers -/

theorem wrapInt32_of_range (z : Int) (h1 : -2147483648 ≤ z) (h2 : z < 2147483648) :
    wrapInt32 z = z := by
  unfold wrapInt32
  omega

theorem castInt_of_lt (n : Nat) (h : n < 2147483648) : castInt n = (n : Int) := by
  unfold castInt
  apply wrapInt32_of_range
  · omega
  · omega

theorem addInt_castInt_one (n : Nat) (h : n + 1 < 2147483648) :
    addInt (castInt n) 1 = (n : Int) + 1 := by
  rw [castInt_of_lt n (by omega)]
  unfold addInt
  apply wrapInt32_of_range <;> omega

/-! ## Logging leaves everything but the trace alone -/

@[simp] theorem logI_cwd (p : Platform) (f : String) (a : List LogArg) (st : Process Shape) :
    (logI p f a st).cwd = st.cwd := by
  cases p <;> rfl

@[simp] theorem logE_cwd (p : Platform) (f : String) (a : List LogArg) (st : Process Shape) :
    (logE p f a st).cwd = st.cwd := by
  cases p <;> rfl

@[simp] theorem logI_root (p : Platform) (f : String) (a : List LogArg) (st : Process Shape) :
    (logI p f a st).g_resource_root = st.g_resource_root := by
  cases p <;> rfl

@[simp] theorem logE_root (p : Platform) (f : String) (a : List LogArg) (st : Process Shape) :
    (logE p f a st).g_resource_root = st.g_resource_root := by
  cases p <;> rfl

@[simp] theorem logI_env (p : Platform) (f : String) (a : List LogArg) (st : Process Shape) :
    (logI p f a st).env = st.env := by
  cases p <;> rfl

@[simp] theorem logE_env (p : Platform) (f : String) (a : List LogArg) (st : Process Shape) :
    (logE p f a st).env = st.env := by
  cases p <;> rfl

/-- The working directory `applyResourceRootIfSet` leaves does not depend on
what was logged before it. -/
@[simp] theorem applyResourceRootIfSet_cwd_logI (p : Platform) (x : Collab Shape Timeline)
    (f : String) (a : List LogArg) (st : Process Shape) :
    (applyResourceRootIfSet p x (logI p f a st)).cwd = (applyResourceRootIfSet p x st).cwd := by
  cases p <;> simp only [applyResourceRootIfSet, logI]
  split_ifs <;> simp

variable [DecidableEq Shape]

/-! ## The two entry points once the pipeline has returned a string -/

/-- Return code and buffer of `rhubarb_analyze_wav_file` when the arguments pass
the check and the pipeline returns `j`. -/
theorem analyze_wav_file_of_ok (p : Platform) (x : Collab Shape Timeline) (w : String)
    (buf : Nat → Char) (size : Int) (st : Process Shape) (j : List Char) (hs : 0 < size)
    (hj : (analyzeWavToJsonInternal x (applyResourceRootIfSet p x st).cwd w none
      RecognizerType.Phonetic "GHX" x.getProcessorCoreCount).1 = Except.ok j) :
    (rhubarb_analyze_wav_file p x (some w) (some buf) size st).rc
        = (if addInt (castInt j.length) 1 > size then 2 else 0) ∧
    (rhubarb_analyze_wav_file p x (some w) (some buf) size st).out_json
        = some (if addInt (castInt j.length) 1 > size then buf
                else memcpy buf (c_str j) (j.length + 1)) := by
  unfold rhubarb_analyze_wav_file
  simp only [not_le.mpr hs, if_false, logI_cwd, applyResourceRootIfSet_cwd_logI]
  rcases h : analyzeWavToJsonInternal x (applyResourceRootIfSet p x st).cwd w none
      RecognizerType.Phonetic "GHX" x.getProcessorCoreCount with ⟨r, ev⟩
  rw [h] at hj
  simp only at hj
  subst hj
  simp only
  split_ifs <;> simp

/-- Return code and buffer of `rhubarb_analyze_wav` when the arguments pass the
check and the pipeline returns `j`. -/
theorem analyze_wav_of_ok (p : Platform) (x : Collab Shape Timeline) (w : String)
    (dialog_text : Option String) (recognizer_type : Int) (extended_shapes : Option String)
    (buf : Nat → Char) (size : Int) (st : Process Shape) (j : List Char) (hs : 0 < size)
    (hj : (analyzeWavToJsonInternal x (applyResourceRootIfSet p x st).cwd w
      (dialogTextOf dialog_text) RecognizerType.Phonetic (shapesOf extended_shapes)
      x.getProcessorCoreCount).1 = Except.ok j) :
    (rhubarb_analyze_wav p x (some w) dialog_text recognizer_type extended_shapes (some buf)
        size st).rc = (if addInt (castInt j.length) 1 > size then 2 else 0) ∧
    (rhubarb_analyze_wav p x (some w) dialog_text recognizer_type extended_shapes (some buf)
        size st).out_json
        = some (if addInt (castInt j.length) 1 > size then buf
                else memcpy buf (c_str j) (j.length + 1)) := by
  unfold rhubarb_analyze_wav
  have hc : ∀ s : Process Shape,
      (match dialogTextOf dialog_text with
        | some d => logI p "rhubarb_analyze_wav: dialog_text_len=%d"
            [LogArg.num (castInt d.length)] s
        | none => logI p "rhubarb_analyze_wav: dialog_text=(none)" [] s).cwd = s.cwd := by
    intro s
    cases dialogTextOf dialog_text <;> simp
  simp only [not_le.mpr hs, if_false, logI_cwd, applyResourceRootIfSet_cwd_logI, hc]
  rcases h : analyzeWavToJsonInternal x (applyResourceRootIfSet p x st).cwd w
      (dialogTextOf dialog_text) RecognizerType.Phonetic (shapesOf extended_shapes)
      x.getProcessorCoreCount with ⟨r, ev⟩
  rw [h] at hj
  simp only at hj
  subst hj
  simp only
  split_ifs <;> simp

/-! ## The copy into the caller's buffer -/

omit [DecidableEq Shape] in
theorem memcpy_c_str_lt (buf : Nat → Char) (j : List Char) (i : Nat) (h : i < j.length) :
    memcpy buf (c_str j) (j.length + 1) i = j.get ⟨i, h⟩ := by
  unfold memcpy c_str
  rw [if_pos (by omega), List.getD_append _ _ _ _ h, List.getD_eq_getElem _ _ h]
  rfl

omit [DecidableEq Shape] in
theorem memcpy_c_str_len (buf : Nat → Char) (j : List Char) :
    memcpy buf (c_str j) (j.length + 1) j.length = NUL := by
  unfold memcpy c_str
  rw [if_pos (by omega), List.getD_append_right _ _ _ _ (le_refl _)]
  simp

omit [DecidableEq Shape] in
theorem memcpy_c_str_gt (buf : Nat → Char) (j : List Char) (i : Nat) (h : j.length < i) :
    memcpy buf (c_str j) (j.length + 1) i = buf i := by
  unfold memcpy
  rw [if_neg (by omega)]

omit [DecidableEq Shape] in
theorem map_range_memcpy (buf : Nat → Char) (j : List Char) :
    (List.range j.length).map (memcpy buf (c_str j) (j.length + 1)) = j := by
  apply List.ext_getElem
  · simp
  · intro i h1 h2
    simp only [List.getElem_map, List.getElem_range]
    exact memcpy_c_str_lt buf j i h2

omit [DecidableEq Shape] in
theorem readCString_memcpy (buf : Nat → Char) (j : List Char) (n : Nat) (hn : j.length < n)
    (hnul : ∀ c ∈ j, c ≠ NUL) :
    readCString (memcpy buf (c_str j) (j.length + 1)) n = j := by
  obtain ⟨k, rfl⟩ : ∃ k, n = j.length + (k + 1) := ⟨n - j.length - 1, by omega⟩
  unfold readCString
  rw [List.range_add, List.map_append, map_range_memcpy, List.range_succ_eq_map,
    List.takeWhile_append_of_pos (by simpa using hnul)]
  simp only [List.map_cons, Nat.add_zero]
  rw [List.takeWhile_cons_of_neg (by simp [memcpy_c_str_len])]
  simp

omit [DecidableEq Shape] in
theorem holdsJson_memcpy (buf : Nat → Char) (j : List Char) (n : Nat) (hn : j.length < n) :
    HoldsJson j buf (memcpy buf (c_str j) (j.length + 1)) n := by
  refine ⟨memcpy_c_str_lt buf j, memcpy_c_str_len buf j, memcpy_c_str_gt buf j, ?_⟩
  intro hnul
  rw [readCString_memcpy buf j n hn hnul]
  exact ⟨rfl, fun _ h => h⟩

/-! ## What the trace observers see of the log and of the resource root step -/

omit [DecidableEq Shape] in
theorem recognizersPassed_append (a b : List (Event Shape)) :
    recognizersPassed (a ++ b) = recognizersPassed a ++ recognizersPassed b := by
  simp [recognizersPassed]

omit [DecidableEq Shape] in
theorem pipelineSteps_append (a b : List (Event Shape)) :
    pipelineSteps (a ++ b) = pipelineSteps a + pipelineSteps b := by
  simp [pipelineSteps]

omit [DecidableEq Shape] in
@[simp] theorem recognizersPassed_logI (p : Platform) (f : String) (a : List LogArg)
    (st : Process Shape) :
    recognizersPassed (logI p f a st).trace = recognizersPassed st.trace := by
  cases p <;> simp [logI, recognizersPassed]

omit [DecidableEq Shape] in
@[simp] theorem recognizersPassed_logE (p : Platform) (f : String) (a : List LogArg)
    (st : Process Shape) :
    recognizersPassed (logE p f a st).trace = recognizersPassed st.trace := by
  cases p <;> simp [logE, recognizersPassed]

omit [DecidableEq Shape] in
@[simp] theorem pipelineSteps_logI (p : Platform) (f : String) (a : List LogArg)
    (st : Process Shape) :
    pipelineSteps (logI p f a st).trace = pipelineSteps st.trace := by
  cases p <;> simp [logI, pipelineSteps]

omit [DecidableEq Shape] in
@[simp] theorem pipelineSteps_logE (p : Platform) (f : String) (a : List LogArg)
    (st : Process Shape) :
    pipelineSteps (logE p f a st).trace = pipelineSteps st.trace := by
  cases p <;> simp [logE, pipelineSteps]

omit [DecidableEq Shape] in
@[simp] theorem recognizersPassed_logIndent (p : Platform) (n : Nat) (st : Process Shape) :
    recognizersPassed (logIndent p n st).trace = recognizersPassed st.trace := by
  induction n generalizing st with
  | zero => rfl
  | succ n ih => simp [logIndent, ih]

omit [DecidableEq Shape] in
@[simp] theorem pipelineSteps_logIndent (p : Platform) (n : Nat) (st : Process Shape) :
    pipelineSteps (logIndent p n st).trace = pipelineSteps st.trace := by
  induction n generalizing st with
  | zero => rfl
  | succ n ih => simp [logIndent, ih]

omit [DecidableEq Shape] in
@[simp] theorem recognizersPassed_logNested (p : Platform) (e : StdException) (level : Nat)
    (st : Process Shape) :
    recognizersPassed (logNested p e level st).trace = recognizersPassed st.trace := by
  induction e generalizing level st with
  | plain what => simp [logNested]
  | nestedStd what nested ih => simp [logNested, ih]
  | nestedOther what => simp [logNested]

omit [DecidableEq Shape] in
@[simp] theorem pipelineSteps_logNested (p : Platform) (e : StdException) (level : Nat)
    (st : Process Shape) :
    pipelineSteps (logNested p e level st).trace = pipelineSteps st.trace := by
  induction e generalizing level st with
  | plain what => simp [logNested]
  | nestedStd what nested ih => simp [logNested, ih]
  | nestedOther what => simp [logNested]

omit [DecidableEq Shape] in
@[simp] theorem recognizersPassed_applyResourceRootIfSet (p : Platform)
    (x : Collab Shape Timeline) (st : Process Shape) :
    recognizersPassed (applyResourceRootIfSet p x st).trace = recognizersPassed st.trace := by
  cases p <;> simp only [applyResourceRootIfSet]
  split_ifs <;> simp only [recognizersPassed_logI, recognizersPassed_logE,
    recognizersPassed_append] <;> simp [recognizersPassed]

omit [DecidableEq Shape] in
@[simp] theorem pipelineSteps_applyResourceRootIfSet (p : Platform)
    (x : Collab Shape Timeline) (st : Process Shape) :
    pipelineSteps (applyResourceRootIfSet p x st).trace = pipelineSteps st.trace := by
  cases p <;> simp only [applyResourceRootIfSet]
  split_ifs <;> simp only [pipelineSteps_logI, pipelineSteps_logE,
    pipelineSteps_append] <;> simp [pipelineSteps]

omit [DecidableEq Shape] in
/-- Lines 243-248 only log: the working directory stays. -/
theorem dialogLog_cwd (p : Platform) (dt : Option String) (s : Process Shape) :
    (match dt with
      | some d => logI p "rhubarb_analyze_wav: dialog_text_len=%d"
          [LogArg.num (castInt d.length)] s
      | none => logI p "rhubarb_analyze_wav: dialog_text=(none)" [] s).cwd = s.cwd := by
  cases dt <;> simp

omit [DecidableEq Shape] in
/-- Lines 243-248 only log: no recognizer is passed. -/
theorem dialogLog_recognizersPassed (p : Platform) (dt : Option String) (s : Process Shape) :
    recognizersPassed
      (match dt with
        | some d => logI p "rhubarb_analyze_wav: dialog_text_len=%d"
            [LogArg.num (castInt d.length)] s
        | none => logI p "rhubarb_analyze_wav: dialog_text=(none)" [] s).trace
      = recognizersPassed s.trace := by
  cases dt <;> simp

omit [DecidableEq Shape] in
/-- Lines 243-248 only log: no pipeline step is taken. -/
theorem dialogLog_pipelineSteps (p : Platform) (dt : Option String) (s : Process Shape) :
    pipelineSteps
      (match dt with
        | some d => logI p "rhubarb_analyze_wav: dialog_text_len=%d"
            [LogArg.num (castInt d.length)] s
        | none => logI p "rhubarb_analyze_wav: dialog_text=(none)" [] s).trace
      = pipelineSteps s.trace := by
  cases dt <;> simp

/-- A call of `rhubarb_analyze_wav` whose arguments pass the check: its pipeline
events are those of the one `analyzeWavToJsonInternal` call it makes, with the
recognizer type `Phonetic`, and a throw from that call gives return code 1 with
the buffer untouched. -/
theorem analyze_wav_of_valid (p : Platform) (x : Collab Shape Timeline) (w : String)
    (dialog_text : Option String) (recognizer_type : Int) (extended_shapes : Option String)
    (buf : Nat → Char) (size : Int) (st : Process Shape) (hs : 0 < size) :
    recognizersPassed (rhubarb_analyze_wav p x (some w) dialog_text recognizer_type
        extended_shapes (some buf) size st).proc.trace
      = recognizersPassed st.trace ++ recognizersPassed
          (analyzeWavToJsonInternal x (applyResourceRootIfSet p x st).cwd w
            (dialogTextOf dialog_text) RecognizerType.Phonetic (shapesOf extended_shapes)
            x.getProcessorCoreCount).2 ∧
    pipelineSteps (rhubarb_analyze_wav p x (some w) dialog_text recognizer_type
        extended_shapes (some buf) size st).proc.trace
      = pipelineSteps st.trace + pipelineSteps
          (analyzeWavToJsonInternal x (applyResourceRootIfSet p x st).cwd w
            (dialogTextOf dialog_text) RecognizerType.Phonetic (shapesOf extended_shapes)
            x.getProcessorCoreCount).2 ∧
    (∀ t, (analyzeWavToJsonInternal x (applyResourceRootIfSet p x st).cwd w
            (dialogTextOf dialog_text) RecognizerType.Phonetic (shapesOf extended_shapes)
            x.getProcessorCoreCount).1 = Except.error t →
      (rhubarb_analyze_wav p x (some w) dialog_text recognizer_type extended_shapes (some buf)
        size st).rc = 1 ∧
      (rhubarb_analyze_wav p x (some w) dialog_text recognizer_type extended_shapes (some buf)
        size st).out_json = some buf) := by
  unfold rhubarb_analyze_wav
  simp only [not_le.mpr hs, if_false, logI_cwd, applyResourceRootIfSet_cwd_logI, dialogLog_cwd]
  rcases h : analyzeWavToJsonInternal x (applyResourceRootIfSet p x st).cwd w
      (dialogTextOf dialog_text) RecognizerType.Phonetic (shapesOf extended_shapes)
      x.getProcessorCoreCount with ⟨r, ev⟩
  rcases r with t | j
  · cases t <;>
      simp [recognizersPassed_append, pipelineSteps_append, dialogLog_recognizersPassed,
        dialogLog_pipelineSteps]
  · simp only
    split_ifs <;>
      simp [recognizersPassed_append, pipelineSteps_append, dialogLog_recognizersPassed,
        dialogLog_pipelineSteps]

/-! ## The static `g_resource_root` is never assigned -/

omit [DecidableEq Shape] in
@[simp] theorem logIndent_root (p : Platform) (n : Nat) (st : Process Shape) :
    (logIndent p n st).g_resource_root = st.g_resource_root := by
  induction n generalizing st with
  | zero => rfl
  | succ n ih => simp [logIndent, ih]

omit [DecidableEq Shape] in
@[simp] theorem logNested_root (p : Platform) (e : StdException) (level : Nat)
    (st : Process Shape) :
    (logNested p e level st).g_resource_root = st.g_resource_root := by
  induction e generalizing level st with
  | plain what => simp [logNested]
  | nestedStd what nested ih => simp [logNested, ih]
  | nestedOther what => simp [logNested]

omit [DecidableEq Shape] in
@[simp] theorem applyResourceRootIfSet_root (p : Platform) (x : Collab Shape Timeline)
    (st : Process Shape) :
    (applyResourceRootIfSet p x st).g_resource_root = st.g_resource_root := by
  cases p <;> simp only [applyResourceRootIfSet]
  split_ifs <;> simp

omit [DecidableEq Shape] in
/-- With the static empty, `applyResourceRootIfSet` leaves the working directory
and calls no `chdir`. -/
theorem applyResourceRootIfSet_of_empty (p : Platform) (x : Collab Shape Timeline)
    (st : Process Shape) (h : st.g_resource_root = "") :
    (applyResourceRootIfSet p x st).cwd = st.cwd ∧
    chdirCalls (applyResourceRootIfSet p x st).trace = chdirCalls st.trace := by
  cases p <;> simp [applyResourceRootIfSet, h, logE, chdirCalls]

omit [DecidableEq Shape] in
/-- The setter writes the environment only: the static keeps its value. -/
theorem set_resource_root_keeps_static (p : Platform) (root : Option String)
    (st : Process Shape) :
    (rhubarb_set_resource_root p root st).2.g_resource_root = st.g_resource_root := by
  unfold rhubarb_set_resource_root
  cases root with
  | none => rfl
  | some r =>
    simp only
    split_ifs
    · rfl
    · cases p <;> rfl

omit [DecidableEq Shape] in
@[simp] theorem logIndent_cwd (p : Platform) (n : Nat) (st : Process Shape) :
    (logIndent p n st).cwd = st.cwd := by
  induction n generalizing st with
  | zero => rfl
  | succ n ih => simp [logIndent, ih]

omit [DecidableEq Shape] in
@[simp] theorem logNested_cwd (p : Platform) (e : StdException) (level : Nat)
    (st : Process Shape) :
    (logNested p e level st).cwd = st.cwd := by
  induction e generalizing level st with
  | plain what => simp [logNested]
  | nestedStd what nested ih => simp [logNested, ih]
  | nestedOther what => simp [logNested]

omit [DecidableEq Shape] in
theorem set_resource_root_keeps_cwd (p : Platform) (root : Option String)
    (st : Process Shape) :
    (rhubarb_set_resource_root p root st).2.cwd = st.cwd := by
  unfold rhubarb_set_resource_root
  cases root with
  | none => rfl
  | some r =>
    simp only
    split_ifs
    · rfl
    · cases p <;> rfl

/-- Whatever root was handed to `rhubarb_set_resource_root`, on every build and
for every collaborator, a following `rhubarb_analyze_wav_file` ends in the
working directory the process had before, as long as the static was empty,
which it is from start-up on. -/
theorem analyze_wav_file_ignores_recorded_root (p : Platform) (x : Collab Shape Timeline)
    (root wav_path : Option String) (out_json : Option (Nat → Char)) (out_json_size : Int)
    (st : Process Shape) (h0 : st.g_resource_root = "") :
    (rhubarb_analyze_wav_file p x wav_path out_json out_json_size
      (rhubarb_set_resource_root p root st).2).proc.cwd = st.cwd := by
  have hroot := set_resource_root_keeps_static p root st
  have hcwd := set_resource_root_keeps_cwd p root st
  generalize (rhubarb_set_resource_root p root st).2 = st1 at hroot hcwd
  rw [h0] at hroot
  rw [← hcwd]
  unfold rhubarb_analyze_wav_file
  cases wav_path with
  | none => simp
  | some w =>
    cases out_json with
    | none => simp
    | some buf =>
      simp only
      split_ifs with hsz
      · simp
      · have ha : ∀ s : Process Shape, s.g_resource_root = "" →
            (applyResourceRootIfSet p x s).cwd = s.cwd :=
          fun s hs => (applyResourceRootIfSet_of_empty p x s hs).1
        simp only [logI_cwd, applyResourceRootIfSet_cwd_logI, ha st1 hroot]
        rcases analyzeWavToJsonInternal x st1.cwd w none RecognizerType.Phonetic "GHX"
          x.getProcessorCoreCount with ⟨r, ev⟩
        rcases r with t | j
        · cases t <;> simp [ha st1 hroot]
        · simp only
          split_ifs <;> simp [ha st1 hroot]

/-! ## The shape set builder -/

/-- A character the parser rejects makes the loop leave with a throw. -/
theorem insertShapes_error_of_rejected (x : Collab Shape Timeline) (l : List Char)
    (acc : Finset Shape) (c : Char) (hc : c ∈ l) (hrej : ∃ t, x.parse c = Except.error t) :
    ∃ t, insertShapes x l acc = Except.error t := by
  induction l generalizing acc with
  | nil => cases hc
  | cons a rest ih =>
    unfold insertShapes
    cases hpa : x.parse a with
    | error t => exact ⟨t, rfl⟩
    | ok shape =>
      simp only
      rcases List.mem_cons.mp hc with h | h
      · obtain ⟨t, ht⟩ := hrej
        rw [h, hpa] at ht
        cases ht
      · exact ih _ h

omit [DecidableEq Shape] in
theorem mem_parsedShapes [DecidableEq Shape] (x : Collab Shape Timeline) (l : List Char)
    (sh : Shape) :
    sh ∈ parsedShapes x l ↔ ∃ c ∈ l, x.parse c = Except.ok sh := by
  unfold parsedShapes
  simp only [List.mem_toFinset, List.mem_filterMap]
  constructor
  · rintro ⟨c, hc, h⟩
    refine ⟨c, hc, ?_⟩
    cases hp : x.parse c with
    | error t => rw [hp] at h; cases h
    | ok s2 => rw [hp] at h; cases h; rfl
  · rintro ⟨c, hc, h⟩
    exact ⟨c, hc, by rw [h]⟩

/-- When every character parses the loop ends with the union of what it started
from and the parsed shapes. -/
theorem insertShapes_ok (x : Collab Shape Timeline) (l : List Char) (acc : Finset Shape)
    (hp : ∀ c ∈ l, ∃ sh, x.parse c = Except.ok sh) :
    insertShapes x l acc = Except.ok (acc ∪ parsedShapes x l) := by
  induction l generalizing acc with
  | nil => simp [insertShapes, parsedShapes]
  | cons a rest ih =>
    obtain ⟨sh, hsh⟩ := hp a (List.mem_cons_self a rest)
    unfold insertShapes
    rw [hsh]
    simp only
    rw [ih _ (fun c hc => hp c (List.mem_cons_of_mem a hc))]
    congr 1
    ext y
    simp only [Finset.mem_union, Finset.mem_insert, mem_parsedShapes, List.mem_cons]
    constructor
    · rintro ((h | h) | ⟨c, hc, h⟩)
      · exact Or.inr ⟨a, Or.inl rfl, by rw [h]; exact hsh⟩
      · exact Or.inl h
      · exact Or.inr ⟨c, Or.inr hc, h⟩
    · rintro (h | ⟨c, hc | hc, h⟩)
      · exact Or.inl (Or.inr h)
      · subst hc
        rw [hsh] at h
        cases h
        exact Or.inl (Or.inl rfl)
      · exact Or.inr ⟨c, hc, h⟩

/-- The events of a pipeline run whose shape string parses: one recognizer, the
one the recognizer type names. -/
theorem recognizersPassed_analyze_phonetic (x : Collab Shape Timeline) (cwd w : String)
    (dt : Option String) (shapes : String) (threads : Int) (S : Finset Shape)
    (hS : getTargetShapeSetForCapi x shapes = Except.ok S) :
    recognizersPassed (analyzeWavToJsonInternal x cwd w dt RecognizerType.Phonetic shapes
      threads).2 = [Recognizer.PhoneticRecognizer] := by
  unfold analyzeWavToJsonInternal
  rw [hS]
  simp only [createRecognizerForCapi]
  cases x.animateWaveFile cwd w dt Recognizer.PhoneticRecognizer S threads with
  | error t => simp [recognizersPassed]
  | ok animation =>
    simp only
    cases x.exportAnimation cwd w animation S <;> simp [recognizersPassed]

omit [DecidableEq Shape] in
/-- The parsed shapes depend on which characters occur, not on their order or
number. -/
theorem parsedShapes_congr [DecidableEq Shape] (x : Collab Shape Timeline) (l1 l2 : List Char)
    (h : ∀ c, c ∈ l1 ↔ c ∈ l2) : parsedShapes x l1 = parsedShapes x l2 := by
  ext sh
  simp only [mem_parsedShapes]
  constructor
  · rintro ⟨c, hc, hp⟩
    exact ⟨c, (h c).mp hc, hp⟩
  · rintro ⟨c, hc, hp⟩
    exact ⟨c, (h c).mpr hc, hp⟩

/-! ## The log written by `logNested` -/

omit [DecidableEq Shape] in
theorem logIndent_trace_android (n : Nat) (st : Process Shape) :
    (logIndent Platform.android n st).trace
      = st.trace ++ List.replicate n (Event.logE "  " []) := by
  induction n generalizing st with
  | zero => simp [logIndent]
  | succ n ih =>
    rw [logIndent, ih, List.replicate_succ]
    simp [logE]

omit [DecidableEq Shape] in
theorem messageLines_append (a b : List (Event Shape)) :
    messageLines (a ++ b) = messageLines a ++ messageLines b := by
  simp [messageLines]

omit [DecidableEq Shape] in
theorem sentinelLines_append (a b : List (Event Shape)) :
    sentinelLines (a ++ b) = sentinelLines a + sentinelLines b := by
  simp [sentinelLines]

omit [DecidableEq Shape] in
theorem messageLines_indent (n : Nat) :
    messageLines (List.replicate n (Event.logE "  " [] : Event Shape)) = [] := by
  induction n with
  | zero => rfl
  | succ n ih =>
    rw [List.replicate_succ]
    simp [messageLines] at ih ⊢

omit [DecidableEq Shape] in
theorem sentinelLines_indent (n : Nat) :
    sentinelLines (List.replicate n (Event.logE "  " [] : Event Shape)) = 0 := by
  induction n with
  | zero => rfl
  | succ n ih =>
    rw [List.replicate_succ]
    simp [sentinelLines] at ih ⊢

omit [DecidableEq Shape] in
theorem messageLines_logNested_android (e : StdException) (level : Nat) (st : Process Shape) :
    messageLines (logNested Platform.android e level st).trace
      = messageLines st.trace ++ e.messages := by
  induction e generalizing level st with
  | plain what =>
    simp [logNested, logE, logIndent_trace_android, messageLines_append, messageLines_indent,
      StdException.messages, messageLines]
  | nestedStd what nested ih =>
    rw [logNested, ih]
    simp [logE, logIndent_trace_android, messageLines_append, messageLines_indent,
      StdException.messages, messageLines]
  | nestedOther what =>
    simp [logNested, logE, logIndent_trace_android, messageLines_append, messageLines_indent,
      StdException.messages, messageLines]

omit [DecidableEq Shape] in
theorem sentinelLines_logNested_android (e : StdException) (level : Nat) (st : Process Shape) :
    sentinelLines (logNested Platform.android e level st).trace
      = sentinelLines st.trace + (if e.endsNonStd then 1 else 0) := by
  induction e generalizing level st with
  | plain what =>
    simp [logNested, logE, logIndent_trace_android, sentinelLines_append, sentinelLines_indent,
      StdException.endsNonStd, sentinelLines]
  | nestedStd what nested ih =>
    rw [logNested, ih]
    simp [logE, logIndent_trace_android, sentinelLines_append, sentinelLines_indent,
      StdException.endsNonStd, sentinelLines]
  | nestedOther what =>
    simp [logNested, logE, logIndent_trace_android, sentinelLines_append, sentinelLines_indent,
      StdException.endsNonStd, sentinelLines]

omit [DecidableEq Shape] in
theorem getLast_logNested_android (e : StdException) (level : Nat) (st : Process Shape)
    (h : e.endsNonStd = true) :
    (logNested Platform.android e level st).trace.getLast?
      = some (Event.logE "  <non-std nested exception>" []) := by
  induction e generalizing level st with
  | plain what => simp [StdException.endsNonStd] at h
  | nestedStd what nested ih =>
    rw [logNested]
    exact ih _ _ (by simpa [StdException.endsNonStd] using h)
  | nestedOther what => simp [logNested, logE]

omit [DecidableEq Shape] in
theorem logIndent_of_not_android (p : Platform) (hp : p ≠ Platform.android) (n : Nat)
    (st : Process Shape) : logIndent p n st = st := by
  induction n generalizing st with
  | zero => rfl
  | succ n ih =>
    rw [logIndent, ih]
    cases p
    · exact absurd rfl hp
    · rfl
    · rfl

omit [DecidableEq Shape] in
theorem logNested_of_not_android (p : Platform) (hp : p ≠ Platform.android) (e : StdException)
    (level : Nat) (st : Process Shape) : logNested p e level st = st := by
  have hE : ∀ (f : String) (a : List LogArg) (s : Process Shape), logE p f a s = s := by
    intro f a s
    cases p
    · exact absurd rfl hp
    · rfl
    · rfl
  induction e generalizing level st with
  | plain what => simp [logNested, hE, logIndent_of_not_android p hp]
  | nestedStd what nested ih => simp [logNested, hE, logIndent_of_not_android p hp, ih]
  | nestedOther what => simp [logNested, hE, logIndent_of_not_android p hp]

end Lemmas

section Claims

variable {Shape Timeline : Type} [DecidableEq Shape]

/-! ## C1: the argument check -/

/-- C1, counterexample: an empty but non-null `wav_path` passes the argument
check of both entry points; with collaborators that cannot open the empty path
the call ends with return code 1, not 3. -/
theorem empty_wav_path_is_not_rejected :
    (rhubarb_analyze_wav_file Platform.posix demoCollab (some "") (some demoBuffer) 8
        (Process.atStart DemoShape)).rc = 1 ∧
    (rhubarb_analyze_wav Platform.posix demoCollab (some "") none 0 none (some demoBuffer) 8
        (Process.atStart DemoShape)).rc = 1 ∧
    (rhubarb_analyze_wav_file Platform.posix demoCollab (some "") (some demoBuffer) 8
        (Process.atStart DemoShape)).rc ≠ 3 ∧
    (rhubarb_analyze_wav Platform.posix demoCollab (some "") none 0 none (some demoBuffer) 8
        (Process.atStart DemoShape)).rc ≠ 3 := by
  decide

/-- C1, as amended: for both entry points, a call in which `wav_path` is null,
or `out_json` is null, or `out_json_size <= 0` returns 3, whatever the other
arguments, the collaborators and the process state are. -/
theorem invalid_arguments_return_3 (p : Platform) (x : Collab Shape Timeline)
    (wav_path dialog_text extended_shapes : Option String) (recognizer_type : Int)
    (out_json : Option (Nat → Char)) (out_json_size : Int) (st : Process Shape)
    (h : wav_path = none ∨ out_json = none ∨ out_json_size ≤ 0) :
    (rhubarb_analyze_wav_file p x wav_path out_json out_json_size st).rc = 3 ∧
    (rhubarb_analyze_wav p x wav_path dialog_text recognizer_type extended_shapes out_json
        out_json_size st).rc = 3 := by
  unfold rhubarb_analyze_wav_file rhubarb_analyze_wav
  cases wav_path with
  | none => exact ⟨rfl, rfl⟩
  | some w =>
    cases out_json with
    | none => exact ⟨rfl, rfl⟩
    | some buf =>
      have hs : out_json_size ≤ 0 := by
        rcases h with h | h | h
        · cases h
        · cases h
        · exact h
      simp only [hs, if_true, and_self]

/-- C1, witness: a call with a valid path and buffer and `out_json_size = 0`. -/
theorem invalid_arguments_return_3_witness :
    (rhubarb_analyze_wav_file Platform.android demoCollab (some "a.wav") (some demoBuffer) 0
        (Process.atStart DemoShape)).rc = 3 ∧
    (rhubarb_analyze_wav Platform.android demoCollab (some "a.wav") (some "hello") 1
        (some "GHX") (some demoBuffer) 0 (Process.atStart DemoShape)).rc = 3 :=
  invalid_arguments_return_3 Platform.android demoCollab (some "a.wav") (some "hello")
    (some "GHX") 1 (some demoBuffer) 0 (Process.atStart DemoShape)
    (Or.inr (Or.inr (le_refl 0)))

/-! ## C2: the result does not fit -/

/-- When `len(j) + 1` is representable in `int`, a buffer that is too small gives
return code 2 and is left as it was, for both entry points. -/
theorem buffer_too_small_in_int_range (p : Platform) (x : Collab Shape Timeline) (w : String)
    (dialog_text : Option String) (recognizer_type : Int) (extended_shapes : Option String)
    (buf : Nat → Char) (size : Int) (st : Process Shape) (j : List Char) (hs : 0 < size)
    (hlen : j.length + 1 < 2147483648) (hsmall : size < (j.length : Int) + 1) :
    ((analyzeWavToJsonInternal x (applyResourceRootIfSet p x st).cwd w none
        RecognizerType.Phonetic "GHX" x.getProcessorCoreCount).1 = Except.ok j →
      (rhubarb_analyze_wav_file p x (some w) (some buf) size st).rc = 2 ∧
      (rhubarb_analyze_wav_file p x (some w) (some buf) size st).out_json = some buf) ∧
    ((analyzeWavToJsonInternal x (applyResourceRootIfSet p x st).cwd w
        (dialogTextOf dialog_text) RecognizerType.Phonetic (shapesOf extended_shapes)
        x.getProcessorCoreCount).1 = Except.ok j →
      (rhubarb_analyze_wav p x (some w) dialog_text recognizer_type extended_shapes (some buf)
        size st).rc = 2 ∧
      (rhubarb_analyze_wav p x (some w) dialog_text recognizer_type extended_shapes (some buf)
        size st).out_json = some buf) := by
  have hgt : addInt (castInt j.length) 1 > size := by
    rw [addInt_castInt_one j.length hlen]
    exact hsmall
  constructor
  · intro hj
    have h := analyze_wav_file_of_ok p x w buf size st j hs hj
    simpa only [hgt, if_true] using h
  · intro hj
    have h := analyze_wav_of_ok p x w dialog_text recognizer_type extended_shapes buf size st j
      hs hj
    simpa only [hgt, if_true] using h

/-- C2, the code at the failing input: the exporter returns 2^31 characters and
the caller passes a buffer of 8. `(int)json.size()` is `-2147483648`, the test
`(int)json.size() + 1 > out_json_size` is false, and both entry points copy the
result over the buffer and return 0 where return code 2 and an untouched buffer
are required. -/
theorem huge_json_overwrites_small_buffer :
    castInt (List.replicate 2147483648 'a').length = -2147483648 ∧
    (rhubarb_analyze_wav_file Platform.posix hugeCollab (some "a.wav") (some demoBuffer) 8
        (Process.atStart DemoShape)).rc = 0 ∧
    (rhubarb_analyze_wav_file Platform.posix hugeCollab (some "a.wav") (some demoBuffer) 8
        (Process.atStart DemoShape)).out_json
      = some (memcpy demoBuffer (c_str (List.replicate 2147483648 'a')) 2147483649) ∧
    (rhubarb_analyze_wav Platform.posix hugeCollab (some "a.wav") none 0 none (some demoBuffer) 8
        (Process.atStart DemoShape)).rc = 0 ∧
    (rhubarb_analyze_wav Platform.posix hugeCollab (some "a.wav") none 0 none (some demoBuffer) 8
        (Process.atStart DemoShape)).out_json
      = some (memcpy demoBuffer (c_str (List.replicate 2147483648 'a')) 2147483649) ∧
    memcpy demoBuffer (c_str (List.replicate 2147483648 'a')) 2147483649 0 = 'a' ∧
    demoBuffer 0 = 'z' := by
  have hc : castInt (List.replicate 2147483648 'a').length = -2147483648 := by
    rw [List.length_replicate]
    decide
  have hle : ¬ addInt (castInt (List.replicate 2147483648 'a').length) 1 > 8 := by
    rw [hc]
    decide
  have h1 := analyze_wav_file_of_ok Platform.posix hugeCollab "a.wav" demoBuffer 8
    (Process.atStart DemoShape) (List.replicate 2147483648 'a') (by decide) rfl
  have h2 := analyze_wav_of_ok Platform.posix hugeCollab "a.wav" none 0 none demoBuffer 8
    (Process.atStart DemoShape) (List.replicate 2147483648 'a') (by decide) rfl
  simp only [hle, if_false, List.length_replicate] at h1 h2
  refine ⟨hc, h1.1, h1.2, h2.1, h2.2, ?_, rfl⟩
  unfold memcpy c_str
  rw [if_pos (by decide), List.getD_append _ _ _ _ (by rw [List.length_replicate]; decide),
    List.getD_eq_getElem _ _ (by rw [List.length_replicate]; decide), List.getElem_replicate]

/-! ## C3: the result fits -/

/-- C3: for both entry points, when the arguments pass the check, the pipeline
returns the string `j` and `len(j) + 1 <= out_json_size` (exact fit included),
the return code is 0, the first `len(j)` characters of the buffer are `j`,
character `len(j)` is the terminator and the characters after it are unchanged;
a `j` without an embedded terminator is what the buffer reads as a C string, so
every key written into `j` is found there. -/
theorem json_copied_when_it_fits (p : Platform) (x : Collab Shape Timeline) (w : String)
    (dialog_text : Option String) (recognizer_type : Int) (extended_shapes : Option String)
    (buf : Nat → Char) (size : Int) (st : Process Shape) (j : List Char)
    (hint : size < 2147483648) (hfit : (j.length : Int) + 1 ≤ size) :
    ((analyzeWavToJsonInternal x (applyResourceRootIfSet p x st).cwd w none
        RecognizerType.Phonetic "GHX" x.getProcessorCoreCount).1 = Except.ok j →
      (rhubarb_analyze_wav_file p x (some w) (some buf) size st).rc = 0 ∧
      ∃ after, (rhubarb_analyze_wav_file p x (some w) (some buf) size st).out_json = some after ∧
        HoldsJson j buf after size.toNat) ∧
    ((analyzeWavToJsonInternal x (applyResourceRootIfSet p x st).cwd w
        (dialogTextOf dialog_text) RecognizerType.Phonetic (shapesOf extended_shapes)
        x.getProcessorCoreCount).1 = Except.ok j →
      (rhubarb_analyze_wav p x (some w) dialog_text recognizer_type extended_shapes (some buf)
        size st).rc = 0 ∧
      ∃ after, (rhubarb_analyze_wav p x (some w) dialog_text recognizer_type extended_shapes
        (some buf) size st).out_json = some after ∧ HoldsJson j buf after size.toNat) := by
  have hs : 0 < size := by omega
  have hle : ¬ addInt (castInt j.length) 1 > size := by
    rw [addInt_castInt_one j.length (by omega)]
    omega
  have hn : j.length < size.toNat := by omega
  constructor
  · intro hj
    have h := analyze_wav_file_of_ok p x w buf size st j hs hj
    simp only [hle, if_false] at h
    exact ⟨h.1, _, h.2, holdsJson_memcpy buf j _ hn⟩
  · intro hj
    have h := analyze_wav_of_ok p x w dialog_text recognizer_type extended_shapes buf size st j
      hs hj
    simp only [hle, if_false] at h
    exact ⟨h.1, _, h.2, holdsJson_memcpy buf j _ hn⟩

/-- C3, witness: the exact-fit case, a result of 33 characters and a buffer of
34, for both entry points; both keys are found in the buffer. -/
theorem json_copied_when_it_fits_witness :
    (rhubarb_analyze_wav_file Platform.posix demoCollab (some "a.wav") (some demoBuffer) 34
        (Process.atStart DemoShape)).rc = 0 ∧
    (rhubarb_analyze_wav Platform.posix demoCollab (some "a.wav") (some "hello") 1 (some "GX")
        (some demoBuffer) 34 (Process.atStart DemoShape)).rc = 0 ∧
    ∃ after, (rhubarb_analyze_wav_file Platform.posix demoCollab (some "a.wav")
        (some demoBuffer) 34 (Process.atStart DemoShape)).out_json = some after ∧
      readCString after 34 = demoJson ∧
      "\"mouthCues\"".toList <:+: readCString after 34 ∧
      "\"metadata\"".toList <:+: readCString after 34 := by
  have h := json_copied_when_it_fits Platform.posix demoCollab "a.wav" (some "hello") 1
    (some "GX") demoBuffer 34 (Process.atStart DemoShape) demoJson (by decide) (by decide)
  obtain ⟨hrc, after, hout, hj⟩ := h.1 rfl
  have hnul : ∀ c ∈ demoJson, c ≠ NUL := by decide
  exact ⟨hrc, (h.2 rfl).1, after, hout, (hj.2.2.2 hnul).1,
    (hj.2.2.2 hnul).2 _ (by decide), (hj.2.2.2 hnul).2 _ (by decide)⟩

/-! ## C4: the resource root -/

/-- C4, the code at the failing input, on ANDROID: `rhubarb_set_resource_root`
returns 0 and records the root in the environment variable, but the static
`g_resource_root` that `applyResourceRootIfSet` reads is still empty; the next
call of either analysis entry point logs `resource root NOT set`, calls no
`chdir`, leaves the working directory where it was and goes on to run the
pipeline. -/
theorem resource_root_recorded_but_not_applied :
    (rhubarb_set_resource_root Platform.android (some "/data/rhubarb")
        (Process.atStart DemoShape)).1 = 0 ∧
    (rhubarb_set_resource_root Platform.android (some "/data/rhubarb")
        (Process.atStart DemoShape)).2.env "RHUBARB_RESOURCE_ROOT" = some "/data/rhubarb" ∧
    (rhubarb_set_resource_root Platform.android (some "/data/rhubarb")
        (Process.atStart DemoShape)).2.g_resource_root = "" ∧
    (rhubarb_analyze_wav_file Platform.android demoCollab (some "a.wav") (some demoBuffer) 64
        (rhubarb_set_resource_root Platform.android (some "/data/rhubarb")
          (Process.atStart DemoShape)).2).proc.cwd = "/" ∧
    chdirCalls (rhubarb_analyze_wav_file Platform.android demoCollab (some "a.wav")
        (some demoBuffer) 64
        (rhubarb_set_resource_root Platform.android (some "/data/rhubarb")
          (Process.atStart DemoShape)).2).proc.trace = [] ∧
    errorFormats (rhubarb_analyze_wav_file Platform.android demoCollab (some "a.wav")
        (some demoBuffer) 64
        (rhubarb_set_resource_root Platform.android (some "/data/rhubarb")
          (Process.atStart DemoShape)).2).proc.trace
      = ["applyResourceRootIfSet: resource root NOT set (call rhubarb_set_resource_root)"] ∧
    pipelineSteps (rhubarb_analyze_wav_file Platform.android demoCollab (some "a.wav")
        (some demoBuffer) 64
        (rhubarb_set_resource_root Platform.android (some "/data/rhubarb")
          (Process.atStart DemoShape)).2).proc.trace = 3 ∧
    (rhubarb_analyze_wav Platform.android demoCollab (some "a.wav") none 0 none
        (some demoBuffer) 64
        (rhubarb_set_resource_root Platform.android (some "/data/rhubarb")
          (Process.atStart DemoShape)).2).proc.cwd = "/" ∧
    chdirCalls (rhubarb_analyze_wav Platform.android demoCollab (some "a.wav") none 0 none
        (some demoBuffer) 64
        (rhubarb_set_resource_root Platform.android (some "/data/rhubarb")
          (Process.atStart DemoShape)).2).proc.trace = [] ∧
    errorFormats (rhubarb_analyze_wav Platform.android demoCollab (some "a.wav") none 0 none
        (some demoBuffer) 64
        (rhubarb_set_resource_root Platform.android (some "/data/rhubarb")
          (Process.atStart DemoShape)).2).proc.trace
      = ["applyResourceRootIfSet: resource root NOT set (call rhubarb_set_resource_root)"] := by
  decide

/-! ## C5: the recognizer selector -/

/-- C5, counterexample: on ANDROID a call of `rhubarb_analyze_wav` with valid
arguments and `recognizer_type = 1` hands the Phonetic recognizer, and no other,
to the pipeline. -/
theorem pocketsphinx_selector_runs_phonetic :
    recognizersPassed (rhubarb_analyze_wav Platform.android demoCollab (some "a.wav") none 1
        (some "GHX") (some demoBuffer) 64 (Process.atStart DemoShape)).proc.trace
      = [Recognizer.PhoneticRecognizer] ∧
    Recognizer.PocketSphinxRecognizer ∉
      recognizersPassed (rhubarb_analyze_wav Platform.android demoCollab (some "a.wav") none 1
        (some "GHX") (some demoBuffer) 64 (Process.atStart DemoShape)).proc.trace := by
  decide

/-- C5, as amended: a call of `rhubarb_analyze_wav` with valid arguments whose
shape string parses hands exactly one recognizer to the pipeline, the Phonetic
one, when `recognizer_type = 0`, and on ANDROID for every `recognizer_type`,
1 included: the argument is logged and the recognizer is forced. -/
theorem recognizer_forced_to_phonetic (p : Platform) (x : Collab Shape Timeline) (w : String)
    (dialog_text : Option String) (recognizer_type : Int) (extended_shapes : Option String)
    (buf : Nat → Char) (size : Int) (st : Process Shape) (S : Finset Shape) (hs : 0 < size)
    (hS : getTargetShapeSetForCapi x (shapesOf extended_shapes) = Except.ok S)
    (_hsel : p = Platform.android ∨ recognizer_type = 0) :
    recognizersPassed (rhubarb_analyze_wav p x (some w) dialog_text recognizer_type
        extended_shapes (some buf) size st).proc.trace
      = recognizersPassed st.trace ++ [Recognizer.PhoneticRecognizer] := by
  rw [(analyze_wav_of_valid p x w dialog_text recognizer_type extended_shapes buf size st hs).1,
    recognizersPassed_analyze_phonetic x _ w _ _ _ S hS]

/-- C5, witness: ANDROID, `recognizer_type = 1`, shape string `"GHX"`. -/
theorem recognizer_forced_to_phonetic_witness :
    recognizersPassed (rhubarb_analyze_wav Platform.android demoCollab (some "a.wav")
        (some "hello") 1 (some "GHX") (some demoBuffer) 64
        (Process.atStart DemoShape)).proc.trace
      = recognizersPassed (Process.atStart DemoShape).trace ++ [Recognizer.PhoneticRecognizer] :=
  recognizer_forced_to_phonetic Platform.android demoCollab "a.wav" (some "hello") 1
    (some "GHX") demoBuffer 64 (Process.atStart DemoShape)
    (insert DemoShape.X (insert DemoShape.H (insert DemoShape.G demoCollab.getBasicShapes)))
    (by decide) rfl (Or.inl rfl)

/-! ## C6: a shape character that does not parse -/

/-- C6: a call of `rhubarb_analyze_wav` with non-null `wav_path` and `out_json`,
`out_json_size > 0` and an `extended_shapes` string holding a character the
parser rejects returns 1, not 3, and leaves the buffer as it was; the throw
comes out of `getTargetShapeSetForCapi`, and no recognizer is created and
neither the pipeline nor the exporter is called. -/
theorem rejected_shape_returns_1 (p : Platform) (x : Collab Shape Timeline) (w : String)
    (dialog_text : Option String) (recognizer_type : Int) (shapes : String)
    (buf : Nat → Char) (size : Int) (st : Process Shape) (c : Char) (hs : 0 < size)
    (hc : c ∈ shapes.toList) (hrej : ∃ t, x.parse c = Except.error t) :
    (rhubarb_analyze_wav p x (some w) dialog_text recognizer_type (some shapes) (some buf)
        size st).rc = 1 ∧
    (rhubarb_analyze_wav p x (some w) dialog_text recognizer_type (some shapes) (some buf)
        size st).rc ≠ 3 ∧
    (rhubarb_analyze_wav p x (some w) dialog_text recognizer_type (some shapes) (some buf)
        size st).out_json = some buf ∧
    (∃ t, getTargetShapeSetForCapi x (shapesOf (some shapes)) = Except.error t) ∧
    pipelineSteps (rhubarb_analyze_wav p x (some w) dialog_text recognizer_type (some shapes)
        (some buf) size st).proc.trace = pipelineSteps st.trace := by
  have hne : shapes ≠ "" := by
    rintro rfl
    cases hc
  have hsh : shapesOf (some shapes) = shapes := by simp [shapesOf, hne]
  obtain ⟨t, ht⟩ := insertShapes_error_of_rejected x shapes.toList x.getBasicShapes c hc hrej
  have hget : getTargetShapeSetForCapi x (shapesOf (some shapes)) = Except.error t := by
    rw [hsh]
    exact ht
  have hrun : ∀ cwd dt threads, analyzeWavToJsonInternal x cwd w dt RecognizerType.Phonetic
      (shapesOf (some shapes)) threads = (Except.error t, []) := by
    intro cwd dt threads
    unfold analyzeWavToJsonInternal
    rw [hget]
  obtain ⟨_, hsteps, herr⟩ :=
    analyze_wav_of_valid p x w dialog_text recognizer_type (some shapes) buf size st hs
  rw [hrun] at hsteps herr
  obtain ⟨hrc, hbuf⟩ := herr t rfl
  refine ⟨hrc, ?_, hbuf, ⟨t, hget⟩, ?_⟩
  · rw [hrc]
    decide
  · rw [hsteps]
    simp [pipelineSteps]

/-- C6, witness: the shape string `"G?X"`, whose second character the example
parser rejects. -/
theorem rejected_shape_returns_1_witness :
    (rhubarb_analyze_wav Platform.android demoCollab (some "a.wav") none 0 (some "G?X")
        (some demoBuffer) 64 (Process.atStart DemoShape)).rc = 1 ∧
    (rhubarb_analyze_wav Platform.android demoCollab (some "a.wav") none 0 (some "G?X")
        (some demoBuffer) 64 (Process.atStart DemoShape)).out_json = some demoBuffer ∧
    pipelineSteps (rhubarb_analyze_wav Platform.android demoCollab (some "a.wav") none 0
        (some "G?X") (some demoBuffer) 64 (Process.atStart DemoShape)).proc.trace = 0 := by
  have h := rejected_shape_returns_1 Platform.android demoCollab "a.wav" none 0 "G?X"
    demoBuffer 64 (Process.atStart DemoShape) '?' (by decide) (by decide) ⟨_, rfl⟩
  exact ⟨h.1, h.2.2.1, h.2.2.2.2⟩

/-! ## C7: the default shape string -/

/-- C7: in `rhubarb_analyze_wav`, a null or empty `extended_shapes` gives the
same target shape set as `"GHX"`, and with all other arguments equal the whole
outcome (return code, buffer, process state) is the same as with `"GHX"`. -/
theorem empty_shapes_same_as_GHX (p : Platform) (x : Collab Shape Timeline)
    (wav_path dialog_text : Option String) (recognizer_type : Int)
    (out_json : Option (Nat → Char)) (out_json_size : Int) (st : Process Shape) :
    getTargetShapeSetForCapi x (shapesOf none) = getTargetShapeSetForCapi x (shapesOf (some "GHX")) ∧
    getTargetShapeSetForCapi x (shapesOf (some ""))
      = getTargetShapeSetForCapi x (shapesOf (some "GHX")) ∧
    rhubarb_analyze_wav p x wav_path dialog_text recognizer_type none out_json out_json_size st
      = rhubarb_analyze_wav p x wav_path dialog_text recognizer_type (some "GHX") out_json
          out_json_size st ∧
    rhubarb_analyze_wav p x wav_path dialog_text recognizer_type (some "") out_json
        out_json_size st
      = rhubarb_analyze_wav p x wav_path dialog_text recognizer_type (some "GHX") out_json
          out_json_size st := by
  have h1 : shapesOf none = shapesOf (some "GHX") := by decide
  have h2 : shapesOf (some "") = shapesOf (some "GHX") := by decide
  refine ⟨by rw [h1], by rw [h2], ?_, ?_⟩
  · unfold rhubarb_analyze_wav
    rw [h1]
  · unfold rhubarb_analyze_wav
    rw [h2]

/-! ## C8: `rhubarb_set_resource_root` -/

omit [DecidableEq Shape] in
/-- C8: `rhubarb_set_resource_root` returns 3 with the environment unchanged
exactly when `root_dir` is null or empty; for any other `root_dir` it returns 0
and `RHUBARB_RESOURCE_ROOT` then holds `root_dir`, whatever it held before, the
other variables being untouched; the return code is 0 or 3. -/
theorem set_resource_root_contract (p : Platform) (root_dir : Option String)
    (st : Process Shape) :
    (((rhubarb_set_resource_root p root_dir st).1 = 3 ∧
        (rhubarb_set_resource_root p root_dir st).2.env = st.env) ↔
      (root_dir = none ∨ root_dir = some "")) ∧
    (∀ r, root_dir = some r → r ≠ "" →
      (rhubarb_set_resource_root p root_dir st).1 = 0 ∧
      (rhubarb_set_resource_root p root_dir st).2.env "RHUBARB_RESOURCE_ROOT" = some r ∧
      ∀ k, k ≠ "RHUBARB_RESOURCE_ROOT" →
        (rhubarb_set_resource_root p root_dir st).2.env k = st.env k) ∧
    ((rhubarb_set_resource_root p root_dir st).1 = 0 ∨
      (rhubarb_set_resource_root p root_dir st).1 = 3) := by
  cases root_dir with
  | none => simp [rhubarb_set_resource_root]
  | some r =>
    by_cases hr : r = ""
    · subst hr
      simp [rhubarb_set_resource_root]
    · cases p <;> simp [rhubarb_set_resource_root, hr, setenv] <;>
        exact fun k h1 h2 => absurd h2 h1

/-- C8, witness: a root replaces an earlier one; the empty root is refused. -/
theorem set_resource_root_contract_witness :
    (rhubarb_set_resource_root Platform.posix (some "/new")
        (setenv "RHUBARB_RESOURCE_ROOT" "/old" (Process.atStart DemoShape))).1 = 0 ∧
    (rhubarb_set_resource_root Platform.posix (some "/new")
        (setenv "RHUBARB_RESOURCE_ROOT" "/old" (Process.atStart DemoShape))).2.env
      "RHUBARB_RESOURCE_ROOT" = some "/new" ∧
    (rhubarb_set_resource_root Platform.posix (some "")
        (Process.atStart DemoShape)).1 = 3 ∧
    (rhubarb_set_resource_root Platform.posix (some "")
        (Process.atStart DemoShape)).2.env = (Process.atStart DemoShape).env :=
  ⟨((set_resource_root_contract Platform.posix (some "/new")
      (setenv "RHUBARB_RESOURCE_ROOT" "/old" (Process.atStart DemoShape))).2.1 "/new" rfl
      (by decide)).1,
   ((set_resource_root_contract Platform.posix (some "/new")
      (setenv "RHUBARB_RESOURCE_ROOT" "/old" (Process.atStart DemoShape))).2.1 "/new" rfl
      (by decide)).2.1,
   ((set_resource_root_contract Platform.posix (some "")
      (Process.atStart DemoShape)).1.mpr (Or.inr rfl)).1,
   ((set_resource_root_contract Platform.posix (some "")
      (Process.atStart DemoShape)).1.mpr (Or.inr rfl)).2⟩

/-! ## C9: the target shape set -/

/-- C9: for a string `s` whose characters all parse, `getTargetShapeSetForCapi`
returns the union of the basic set with the set of the parsed characters; the
result contains the basic set, is the same for every permutation of `s`, for
every string with the same characters however often repeated, and for
`s ++ s`. -/
theorem target_shape_set_is_union (x : Collab Shape Timeline) (s : String)
    (hp : ∀ c ∈ s.toList, ∃ sh, x.parse c = Except.ok sh) :
    getTargetShapeSetForCapi x s
      = Except.ok (x.getBasicShapes ∪ parsedShapes x s.toList) ∧
    x.getBasicShapes ⊆ x.getBasicShapes ∪ parsedShapes x s.toList ∧
    (∀ t : String, t.toList.Perm s.toList →
      getTargetShapeSetForCapi x t = getTargetShapeSetForCapi x s) ∧
    (∀ t : String, (∀ c, c ∈ t.toList ↔ c ∈ s.toList) →
      getTargetShapeSetForCapi x t = getTargetShapeSetForCapi x s) ∧
    getTargetShapeSetForCapi x (s ++ s) = getTargetShapeSetForCapi x s := by
  have hs : getTargetShapeSetForCapi x s
      = Except.ok (x.getBasicShapes ∪ parsedShapes x s.toList) :=
    insertShapes_ok x s.toList x.getBasicShapes hp
  have hsame : ∀ t : String, (∀ c, c ∈ t.toList ↔ c ∈ s.toList) →
      getTargetShapeSetForCapi x t = getTargetShapeSetForCapi x s := by
    intro t ht
    rw [hs]
    unfold getTargetShapeSetForCapi
    rw [insertShapes_ok x t.toList x.getBasicShapes (fun c hc => hp c ((ht c).mp hc)),
      parsedShapes_congr x t.toList s.toList ht]
  refine ⟨hs, Finset.subset_union_left, ?_, hsame, ?_⟩
  · intro t ht
    exact hsame t (fun c => ht.mem_iff)
  · apply hsame
    intro c
    show c ∈ (s ++ s).data ↔ c ∈ s.data
    rw [String.data_append, List.mem_append, or_self]

/-- C9, witness: the example catalogue and the string `"GHX"`, against
`"XGH"`, `"GGHXX"` and `"GHXGHX"`. -/
theorem target_shape_set_is_union_witness :
    getTargetShapeSetForCapi demoCollab "GHX"
      = Except.ok (demoCollab.getBasicShapes ∪ parsedShapes demoCollab "GHX".toList) ∧
    getTargetShapeSetForCapi demoCollab "XGH" = getTargetShapeSetForCapi demoCollab "GHX" ∧
    getTargetShapeSetForCapi demoCollab "GGHXX" = getTargetShapeSetForCapi demoCollab "GHX" ∧
    getTargetShapeSetForCapi demoCollab ("GHX" ++ "GHX")
      = getTargetShapeSetForCapi demoCollab "GHX" := by
  have hp : ∀ c ∈ "GHX".toList, ∃ sh, demoCollab.parse c = Except.ok sh := by
    intro c hc
    have hc3 : c ∈ ['G', 'H', 'X'] := hc
    simp only [List.mem_cons, List.mem_singleton, List.not_mem_nil, or_false] at hc3
    rcases hc3 with rfl | rfl | rfl
    · exact ⟨DemoShape.G, rfl⟩
    · exact ⟨DemoShape.H, rfl⟩
    · exact ⟨DemoShape.X, rfl⟩
  have hrep : ∀ c, c ∈ "GGHXX".toList ↔ c ∈ "GHX".toList := by
    intro c
    show c ∈ ['G', 'G', 'H', 'X', 'X'] ↔ c ∈ ['G', 'H', 'X']
    simp only [List.mem_cons, List.mem_singleton, List.not_mem_nil, or_false]
    tauto
  have h := target_shape_set_is_union demoCollab "GHX" hp
  exact ⟨h.1, h.2.2.1 "XGH" (by decide), h.2.2.2.1 "GGHXX" hrep, h.2.2.2.2⟩

/-! ## C10: the exception chain in the log -/

/-- C10, counterexample: on ANDROID a chain of two standard exceptions yields
three log entries, the indentation of the inner level being an entry of its
own; on a build without ANDROID a chain of one yields none. -/
theorem logNested_entry_count_differs :
    (StdException.nestedStd "outer" (StdException.plain "inner")).messages.length = 2 ∧
    (logNested Platform.android (StdException.nestedStd "outer" (StdException.plain "inner")) 0
        (Process.atStart DemoShape)).trace.length = 3 ∧
    errorFormats (logNested Platform.android
        (StdException.nestedStd "outer" (StdException.plain "inner")) 0
        (Process.atStart DemoShape)).trace = ["%s", "  ", "%s"] ∧
    (StdException.plain "only").messages.length = 1 ∧
    (logNested Platform.posix (StdException.plain "only") 0
        (Process.atStart DemoShape)).trace.length = 0 := by
  decide

omit [DecidableEq Shape] in
/-- C10, as amended: `logNested` is a total function of the finite chain. On
ANDROID the entries it logs through `logE("%s", e.what())` are the messages of
the levels, one per level, outermost first; it logs one
`<non-std nested exception>` entry, as its last entry, when the innermost
recorded cause is not a standard exception, and none otherwise. On a build
without ANDROID it logs nothing. -/
theorem logNested_messages_in_order (p : Platform) (e : StdException) (level : Nat)
    (st : Process Shape) :
    (p = Platform.android →
      messageLines (logNested p e level st).trace = messageLines st.trace ++ e.messages ∧
      sentinelLines (logNested p e level st).trace
        = sentinelLines st.trace + (if e.endsNonStd then 1 else 0) ∧
      (e.endsNonStd = true →
        (logNested p e level st).trace.getLast?
          = some (Event.logE "  <non-std nested exception>" []))) ∧
    (p ≠ Platform.android → logNested p e level st = st) := by
  constructor
  · rintro rfl
    exact ⟨messageLines_logNested_android e level st,
      sentinelLines_logNested_android e level st, getLast_logNested_android e level st⟩
  · intro hp
    exact logNested_of_not_android p hp e level st

/-- C10, witness: a chain of three levels whose innermost cause is not a
standard exception, on ANDROID and on a POSIX build. -/
theorem logNested_messages_in_order_witness :
    messageLines (logNested Platform.android
        (StdException.nestedStd "a" (StdException.nestedStd "b" (StdException.nestedOther "c")))
        0 (Process.atStart DemoShape)).trace = ["a", "b", "c"] ∧
    sentinelLines (logNested Platform.android
        (StdException.nestedStd "a" (StdException.nestedStd "b" (StdException.nestedOther "c")))
        0 (Process.atStart DemoShape)).trace = 1 ∧
    (logNested Platform.posix
        (StdException.nestedStd "a" (StdException.nestedStd "b" (StdException.nestedOther "c")))
        0 (Process.atStart DemoShape)).trace = [] :=
  ⟨((logNested_messages_in_order Platform.android
      (StdException.nestedStd "a" (StdException.nestedStd "b" (StdException.nestedOther "c")))
      0 (Process.atStart DemoShape)).1 rfl).1,
   ((logNested_messages_in_order Platform.android
      (StdException.nestedStd "a" (StdException.nestedStd "b" (StdException.nestedOther "c")))
      0 (Process.atStart DemoShape)).1 rfl).2.1,
   congrArg Process.trace ((logNested_messages_in_order Platform.posix
      (StdException.nestedStd "a" (StdException.nestedStd "b" (StdException.nestedOther "c")))
      0 (Process.atStart DemoShape)).2 (by decide))⟩

end Claims

end Rhubarb

